import Mathlib

/-!
Verification of the CustomStreamTopQ stream-preview plugin (src/index.tsx).

The development shallowly embeds the plugin's stateful logic:
* the per-profile image store (`Profile`, `addImage`, `deleteImageAtIndex`,
  `moveImage`, `handleDroppedFiles`),
* the slide selector and liveness tracker (`StreamState`,
  `getCustomThumbnail`, `timerTick`),
* the durable-storage layer and its load-time migration
  (`DataStore`, `loadProfilesFromDataStore`).

Machine integers of the source are modelled as `Nat`/`Int`; JS array index
parameters that may be negative are `Int`.  Asynchronous persistence calls
are modelled by returning a flag (or the written value) recording whether
the corresponding `DataStore` write was reached.
-/

namespace CustomStream

/-- An in-memory image blob: its MIME type tag and raw byte sequence,
mirroring the `Blob` contents that the plugin stores and restores. -/
structure Image where
  type : String
  data : List Nat
deriving DecidableEq

/-- Model of `blobToDataUrl`: a deterministic display-ready encoding of a
blob (a `FileReader` data URL in the source). -/
def blobToDataUrl (b : Image) : String :=
  "data:" ++ b.type ++ ";base64," ++ toString b.data

def defaultImage : Image := ⟨"", []⟩

/-- A profile: id, display name, ordered images, the parallel list of
precomputed data URIs, and the current slide index. -/
structure Profile where
  id : String
  name : String
  images : List Image
  dataUris : List String
  currentIndex : Nat
deriving DecidableEq

def MAX_IMAGES : Nat := 50
def MAX_IMAGES_PER_PROFILE : Nat := 50
def MAX_PROFILES : Nat := 5
def DEFAULT_PROFILE_ID : String := "default"

/-- `addImage`: appends the blob and its data URI to the active profile
unconditionally (the source function performs no capacity check). -/
def addImage (blob : Image) (p : Profile) : Profile :=
  { p with
    images := p.images ++ [blob]
    dataUris := p.dataUris ++ [blobToDataUrl blob] }

/-- `deleteImageAtIndex`: out-of-range indices return early; otherwise the
image and its data URI are spliced out and the current index is reset to 0
when it no longer fits.  The boolean records whether the final
`saveProfilesToDataStore` persistence call was reached. -/
def deleteImageAtIndex (index : Int) (p : Profile) : Profile × Bool :=
  if index < 0 ∨ (p.images.length : Int) ≤ index then (p, false)
  else
    let i := index.toNat
    let images := p.images.eraseIdx i
    let dataUris := p.dataUris.eraseIdx i
    let currentIndex := if images.length ≤ p.currentIndex then 0 else p.currentIndex
    ({ p with images := images, dataUris := dataUris, currentIndex := currentIndex }, true)

/-- `moveImage`: equal or out-of-range indices return early; otherwise the
two positions are swapped in the image list and the data-URI list in
lock-step, and the current index follows a swapped position.  The boolean
records whether the persistence call was reached. -/
def moveImage (fromIndex toIndex : Int) (p : Profile) : Profile × Bool :=
  if fromIndex = toIndex then (p, false)
  else if fromIndex < 0 ∨ (p.images.length : Int) ≤ fromIndex then (p, false)
  else if toIndex < 0 ∨ (p.images.length : Int) ≤ toIndex then (p, false)
  else
    let f := fromIndex.toNat
    let t := toIndex.toNat
    let images := (p.images.set f (p.images.getD t defaultImage)).set t
      (p.images.getD f defaultImage)
    let dataUris := (p.dataUris.set f (p.dataUris.getD t "")).set t (p.dataUris.getD f "")
    let currentIndex :=
      if p.currentIndex = f then t
      else if p.currentIndex = t then f
      else p.currentIndex
    ({ p with images := images, dataUris := dataUris, currentIndex := currentIndex }, true)

/-- A dropped file: MIME type, byte size, and the processed 1280x720 blob
that `processImage` would produce for it. -/
structure DFile where
  type : String
  size : Nat
  processed : Image
deriving DecidableEq

/-- The file loop of `handleDroppedFiles`: stops once `added` reaches
`remaining`, skips non-images, GIFs and files over 8MB, and otherwise
processes and adds the file. -/
def addLoop : List DFile → Profile → Nat → Nat → Profile
  | [], p, _, _ => p
  | file :: rest, p, added, remaining =>
    if remaining ≤ added then p
    else if ¬ file.type.startsWith "image/" ∨ file.type = "image/gif" then
      addLoop rest p added remaining
    else if 8 * 1024 * 1024 < file.size then addLoop rest p added remaining
    else addLoop rest (addImage file.processed p) (added + 1) remaining

/-- `handleDroppedFiles`: computes the remaining capacity of the profile
and rejects the whole batch when none is left; otherwise runs the add
loop, which adds at most `remaining` images. -/
def handleDroppedFiles (files : List DFile) (p : Profile) : Profile :=
  if MAX_IMAGES_PER_PROFILE ≤ p.images.length then p
  else addLoop files p 0 (MAX_IMAGES_PER_PROFILE - p.images.length)

/-- The profile invariant maintained by the store: the current slide index
is in range whenever the profile holds images, and is 0 when it is empty. -/
def ProfileWF (p : Profile) : Prop :=
  p.currentIndex < p.images.length ∨ (p.images.length = 0 ∧ p.currentIndex = 0)

instance (p : Profile) : Decidable (ProfileWF p) := by
  unfold ProfileWF; infer_instance

/-- The module-level mutable state consumed by the slide selector and the
liveness tracker: the three settings flags, the active profile's cached
data URIs and slide index, the liveness stamp and flag, the one-shot
manual-override flag, and the pointer to the image currently on stream. -/
structure StreamState where
  replaceEnabled : Bool
  slideshowEnabled : Bool
  slideshowRandom : Bool
  cachedDataUris : List String
  currentSlideIndex : Nat
  lastSlideChangeTime : Nat
  isStreamActive : Bool
  manualSlideChange : Bool
  actualStreamImageUri : Option String
deriving DecidableEq

/-- Result of one `getCustomThumbnail` invocation: the returned payload,
the updated module state, and the index written to durable storage by
`saveSlideIndex` (`none` when `saveSlideIndex` was not called). -/
structure TriggerResult where
  returned : String
  state : StreamState
  savedIndex : Option Nat
deriving DecidableEq

/-- The `do ... while (nextIndex === currentSlideIndex && length > 1)`
redraw loop of the random branch: `draws` is the stream of values produced
by `Math.floor(Math.random() * length)`; the first draw that is not an
immediate repeat (or any draw at all when `n ≤ 1`) is accepted.  `none`
models exhausting the supplied draws. -/
def pickRandom : List Nat → Nat → Nat → Option Nat
  | [], _, _ => none
  | d :: rest, cur, n => if d = cur ∧ 1 < n then pickRandom rest cur n else some d

/-- The validity-checked index of the single-image/slideshow-off branch:
`currentSlideIndex < cachedDataUris.length ? currentSlideIndex : 0`. -/
def shownIdx (s : StreamState) : Nat :=
  if s.currentSlideIndex < s.cachedDataUris.length then s.currentSlideIndex else 0

/-- `getCustomThumbnail`: the host trigger function.  It marks the stream
active, then branches: disabled/zero-images passthrough, single-image or
slideshow-off display, one-shot manual override, or slideshow advancement
(sequential or random).  `now` is `Date.now()` at the invocation. -/
def getCustomThumbnail (draws : List Nat) (now : Nat) (originalThumbnail : String)
    (s : StreamState) : Option TriggerResult :=
  if s.replaceEnabled = false ∨ s.cachedDataUris.length = 0 then
    some ⟨originalThumbnail,
      { s with isStreamActive := true, actualStreamImageUri := none }, none⟩
  else if s.cachedDataUris.length = 1 ∨ s.slideshowEnabled = false then
    some ⟨s.cachedDataUris.getD (shownIdx s) "",
      { s with isStreamActive := true, lastSlideChangeTime := now,
               actualStreamImageUri := some (s.cachedDataUris.getD (shownIdx s) "") },
      none⟩
  else if s.manualSlideChange = true then
    some ⟨s.cachedDataUris.getD s.currentSlideIndex "",
      { s with isStreamActive := true, manualSlideChange := false,
               lastSlideChangeTime := now,
               actualStreamImageUri := some (s.cachedDataUris.getD s.currentSlideIndex "") },
      none⟩
  else
    match
      (if s.slideshowRandom = true then
        pickRandom draws s.currentSlideIndex s.cachedDataUris.length
       else some ((s.currentSlideIndex + 1) % s.cachedDataUris.length)) with
    | none => none
    | some nextIndex =>
      some ⟨s.cachedDataUris.getD nextIndex "",
        { s with isStreamActive := true, currentSlideIndex := nextIndex,
                 lastSlideChangeTime := now,
                 actualStreamImageUri := some (s.cachedDataUris.getD nextIndex "") },
        some nextIndex⟩

/-- One 1-second tick of the liveness interval: while marked active with a
positive stamp, elapsing more than 420000 ms demotes the stream to
inactive; otherwise the state is untouched. -/
def timerTick (now : Nat) (s : StreamState) : StreamState :=
  if s.isStreamActive = true ∧ 0 < s.lastSlideChangeTime ∧
      420000 < now - s.lastSlideChangeTime then
    { s with isStreamActive := false }
  else s

/-- Iterated triggering: `runSeq orig times s k` is the module state after
`k` successive `getCustomThumbnail` invocations (with an empty draw
stream, as the sequential branch consumes no draws), the j-th occurring at
time `times j`. -/
def runSeq (orig : String) (times : Nat → Nat) (s : StreamState) : Nat → Option StreamState
  | 0 => some s
  | k + 1 =>
    match runSeq orig times s k with
    | none => none
    | some sk => (getCustomThumbnail [] (times k) orig sk).map TriggerResult.state

/-- The conditions under which `getCustomThumbnail` takes the sequential
advancing branch: replacement on, slideshow on, random off, no pending
manual override, and at least two cached images. -/
def SeqAdvancing (s : StreamState) : Prop :=
  s.replaceEnabled = true ∧ s.slideshowEnabled = true ∧ s.slideshowRandom = false ∧
  s.manualSlideChange = false ∧ 2 ≤ s.cachedDataUris.length

instance (s : StreamState) : Decidable (SeqAdvancing s) := by
  unfold SeqAdvancing; infer_instance

/-- A profile as serialized by `saveProfilesToDataStore`: raw image bytes
plus type tag, and the current index. -/
structure StoredProfile where
  id : String
  name : String
  images : List Image
  currentIndex : Nat
deriving DecidableEq

/-- The multi-profile durable record: the serialized profiles plus the
active profile id. -/
structure StoredProfilesData where
  profiles : List StoredProfile
  activeProfileId : String
deriving DecidableEq

/-- The legacy single-list durable record. -/
structure SlideshowData where
  images : List Image
deriving DecidableEq

/-- The durable store: the four keys the plugin reads or writes
(`..._Profiles`, `..._Slideshow`, `..._SlideIndex`, `..._ImageData`), each
either absent or holding its record. -/
structure DataStore where
  profilesData : Option StoredProfilesData
  slideshowData : Option SlideshowData
  indexData : Option Nat
  imageData : Option (List Image)
deriving DecidableEq

def storeProfile (p : Profile) : StoredProfile :=
  ⟨p.id, p.name, p.images, p.currentIndex⟩

/-- Reconstruction of an in-memory profile from its stored form: blobs are
rebuilt from the bytes and each data URI is recomputed. -/
def profileOfStored (sp : StoredProfile) : Profile :=
  ⟨sp.id, sp.name, sp.images, sp.images.map blobToDataUrl, sp.currentIndex⟩

def emptyDefaultProfile : Profile :=
  ⟨DEFAULT_PROFILE_ID, "Default", [], [], 0⟩

/-- `saveProfilesToDataStore`: serializes every profile plus the active
pointer under the multi-profile key. -/
def saveProfilesToDataStore (ps : List Profile) (activeId : String) (ds : DataStore) :
    DataStore :=
  { ds with profilesData := some ⟨ps.map storeProfile, activeId⟩ }

/-- The legacy branch of `loadProfilesFromDataStore`: migrate the old
single-list record into the default profile, persist the new format and
delete the legacy keys; with no legacy record, initialize an empty default
profile.  Returns the loaded profiles, the active profile id, and the
resulting durable store. -/
def loadLegacy (ds : DataStore) : List Profile × String × DataStore :=
  match ds.slideshowData with
  | some old =>
    if old.images.length ≠ 0 then
      let oldIndex := ds.indexData.getD 0
      let prof : Profile :=
        ⟨DEFAULT_PROFILE_ID, "Default", old.images, old.images.map blobToDataUrl, oldIndex⟩
      let ds2 := saveProfilesToDataStore [prof] DEFAULT_PROFILE_ID ds
      ([prof], DEFAULT_PROFILE_ID,
        { ds2 with slideshowData := none, indexData := none, imageData := none })
    else ([emptyDefaultProfile], DEFAULT_PROFILE_ID, ds)
  | none => ([emptyDefaultProfile], DEFAULT_PROFILE_ID, ds)

/-- `loadProfilesFromDataStore`: when the multi-profile record is present
and non-empty, rebuild the profiles from it (falling back to the default
active id when the stored one is empty); otherwise run the legacy
migration path. -/
def loadProfilesFromDataStore (ds : DataStore) : List Profile × String × DataStore :=
  match ds.profilesData with
  | some data =>
    if data.profiles.length ≠ 0 then
      (data.profiles.map profileOfStored,
        (if data.activeProfileId = "" then DEFAULT_PROFILE_ID else data.activeProfileId),
        ds)
    else loadLegacy ds
  | none => loadLegacy ds

def img0 : Image := ⟨"image/jpeg", [0]⟩
def imgA : Image := ⟨"image/jpeg", [1]⟩
def imgB : Image := ⟨"image/jpeg", [2]⟩

/-- A profile already holding the maximum of 50 images. -/
def fullProfile : Profile :=
  ⟨DEFAULT_PROFILE_ID, "Default", List.replicate 50 img0,
    List.replicate 50 (blobToDataUrl img0), 0⟩

/-- A well-formed profile holding two images. -/
def twoProfile : Profile :=
  ⟨DEFAULT_PROFILE_ID, "Default", [imgA, imgB],
    [blobToDataUrl imgA, blobToDataUrl imgB], 0⟩

/-- A well-formed profile holding three images with the last one selected. -/
def threeProfile : Profile :=
  ⟨DEFAULT_PROFILE_ID, "Default", [imgA, imgB, img0],
    [blobToDataUrl imgA, blobToDataUrl imgB, blobToDataUrl img0], 2⟩

/-- A state with replacement disabled and no images, whose stale liveness
stamp is 1000. -/
def disabledState : StreamState :=
  ⟨false, false, false, [], 0, 1000, false, false, none⟩

/-- A state with replacement on, slideshow off, one cached image and no
liveness stamp yet. -/
def oneImageState : StreamState :=
  ⟨true, false, false, ["u0"], 0, 0, false, false, none⟩

/-- The trigger result of `getCustomThumbnail [] 7 "orig" oneImageState`. -/
def oneImageResult : TriggerResult :=
  ⟨"u0", ⟨true, false, false, ["u0"], 0, 7, true, false, some "u0"⟩, none⟩

/-- A state currently marked active with stamp 1000. -/
def activeState : StreamState :=
  ⟨true, false, false, ["u0"], 0, 1000, true, false, none⟩

/-- A state in the sequential advancing branch: slideshow on, random off,
three cached images, index 0. -/
def seq3State : StreamState :=
  ⟨true, true, false, ["u0", "u1", "u2"], 0, 0, false, false, none⟩

/-- The trigger result of `getCustomThumbnail [] 9 "o" seq3State`. -/
def seq3Result : TriggerResult :=
  ⟨"u1", ⟨true, true, false, ["u0", "u1", "u2"], 1, 9, true, false, some "u1"⟩, some 1⟩

/-- A state with the manual-override flag pending on a two-image slideshow
whose selected index is 1. -/
def manualState : StreamState :=
  ⟨true, true, false, ["u0", "u1"], 1, 0, false, true, none⟩

/-- A random-mode state with two cached images and index 0. -/
def randState : StreamState :=
  ⟨true, true, true, ["u0", "u1"], 0, 0, false, false, none⟩

/-- The trigger result of `getCustomThumbnail [0, 1] 5 "o" randState`: the
draw 0 is an immediate repeat and is redrawn, the draw 1 is accepted. -/
def randResult : TriggerResult :=
  ⟨"u1", ⟨true, true, true, ["u0", "u1"], 1, 5, true, false, some "u1"⟩, some 1⟩

/-- The state after one trigger on `seq3State` (times j = j). -/
def seq3After1 : StreamState :=
  ⟨true, true, false, ["u0", "u1", "u2"], 1, 0, true, false, some "u1"⟩

/-- The state after two triggers on `seq3State` (times j = j). -/
def seq3After2 : StreamState :=
  ⟨true, true, false, ["u0", "u1", "u2"], 2, 1, true, false, some "u2"⟩

/-- A durable store holding only the legacy single-list record with two
images and legacy index 1. -/
def legacyStore : DataStore :=
  ⟨none, some ⟨[imgA, imgB]⟩, some 1, some [imgA, imgB]⟩

lemma profileWF_delete (i : Int) (p : Profile) (h : ProfileWF p) :
    ProfileWF (deleteImageAtIndex i p).1 := by
  unfold deleteImageAtIndex ProfileWF at *
  split
  · exact h
  · rename_i hin
    push_neg at hin
    obtain ⟨h0, hlt⟩ := hin
    have hi : i.toNat < p.images.length := by omega
    simp only [List.length_eraseIdx, hi, if_pos]
    split <;> omega

lemma profileWF_move (f t : Int) (p : Profile) (h : ProfileWF p) :
    ProfileWF (moveImage f t p).1 := by
  unfold moveImage ProfileWF at *
  split
  · exact h
  split
  · exact h
  split
  · exact h
  rename_i hne hf ht
  push_neg at hf ht
  obtain ⟨hf0, hflt⟩ := hf
  obtain ⟨ht0, htlt⟩ := ht
  have hfn : f.toNat < p.images.length := by omega
  have htn : t.toNat < p.images.length := by omega
  simp only [List.length_set]
  split
  · omega
  split <;> omega

lemma addLoop_length_le (files : List DFile) (p : Profile) (added remaining : Nat) :
    (addLoop files p added remaining).images.length ≤
      p.images.length + (remaining - added) := by
  induction files generalizing p added with
  | nil => simp [addLoop]
  | cons file rest ih =>
    unfold addLoop
    split
    · omega
    split
    · exact le_trans (ih p added) (by omega)
    split
    · exact le_trans (ih p added) (by omega)
    · rename_i hbreak _ _
      have hrec := ih (addImage file.processed p) (added + 1)
      have hlen : (addImage file.processed p).images.length = p.images.length + 1 := by
        simp [addImage]
      rw [hlen] at hrec
      omega

/-- Claim C1, counterexample: `addImage` itself performs no capacity
check.  On a profile already holding 50 images, a direct `addImage` call
is not rejected: it yields 51 images, exceeding the 50-image cap the claim
asserts can never be exceeded by any sequence of `addImage` calls. -/
theorem C1_counterexample :
    MAX_IMAGES_PER_PROFILE < (addImage img0 fullProfile).images.length := by
  simp [addImage, fullProfile, MAX_IMAGES_PER_PROFILE]

/-- Claim C1 (amended): the 50-image cap is enforced by the add entry
point `handleDroppedFiles` (which computes the remaining capacity before
calling `addImage`), not by `addImage` itself.  Starting from a profile
with at most 50 images, `handleDroppedFiles` never leaves more than 50,
and on a profile already at 50 images the whole batch is rejected with the
profile (images, dataUris and currentIndex) left entirely unchanged and no
storage write performed. -/
theorem C1_cap_enforced_by_caller (files : List DFile) (p : Profile)
    (h : p.images.length ≤ MAX_IMAGES_PER_PROFILE) :
    (handleDroppedFiles files p).images.length ≤ MAX_IMAGES_PER_PROFILE
  ∧ (p.images.length = MAX_IMAGES_PER_PROFILE → handleDroppedFiles files p = p) := by
  constructor
  · unfold handleDroppedFiles
    split
    · exact h
    · have hb := addLoop_length_le files p 0 (MAX_IMAGES_PER_PROFILE - p.images.length)
      omega
  · intro h50
    unfold handleDroppedFiles
    rw [if_pos (by omega)]

/-- Witness for C1: the amended theorem applied to a one-file batch
dropped on the full 50-image profile. -/
theorem C1_cap_enforced_by_caller_witness :
    (handleDroppedFiles [⟨"image/png", 100, imgA⟩] fullProfile).images.length ≤
      MAX_IMAGES_PER_PROFILE
  ∧ (fullProfile.images.length = MAX_IMAGES_PER_PROFILE →
      handleDroppedFiles [⟨"image/png", 100, imgA⟩] fullProfile = fullProfile) :=
  C1_cap_enforced_by_caller [⟨"image/png", 100, imgA⟩] fullProfile (by decide)

/-- Claim C4: from any state satisfying the profile invariant, any
`deleteImageAtIndex` call followed by any `moveImage` call leaves the
current slide index inside `[0, count)` for the resulting image count when
it is non-zero, and at 0 when the profile ends up empty; moreover an
in-range deletion that leaves the old index out of bounds resets it to 0. -/
theorem C4_delete_then_move_index_in_range (p : Profile) (i f t : Int)
    (h : ProfileWF p) :
    ((moveImage f t (deleteImageAtIndex i p).1).1.images.length ≠ 0 →
        (moveImage f t (deleteImageAtIndex i p).1).1.currentIndex <
          (moveImage f t (deleteImageAtIndex i p).1).1.images.length)
  ∧ ((moveImage f t (deleteImageAtIndex i p).1).1.images.length = 0 →
        (moveImage f t (deleteImageAtIndex i p).1).1.currentIndex = 0)
  ∧ (¬ (i < 0 ∨ (p.images.length : Int) ≤ i) →
        p.images.length ≤ p.currentIndex + 1 →
        (deleteImageAtIndex i p).1.currentIndex = 0) := by
  refine ⟨?_, ?_, ?_⟩
  · intro hne
    have h2 := profileWF_move f t _ (profileWF_delete i p h)
    unfold ProfileWF at h2
    omega
  · intro hz
    have h2 := profileWF_move f t _ (profileWF_delete i p h)
    unfold ProfileWF at h2
    omega
  · intro hin hle
    unfold deleteImageAtIndex
    rw [if_neg hin]
    push_neg at hin
    have hi : i.toNat < p.images.length := by omega
    simp only [List.length_eraseIdx, hi, if_pos]
    rw [if_pos (by omega)]

/-- Witness for C4: deleting image 0 of the three-image profile (whose
selected index is 2) and then swapping positions 0 and 1. -/
theorem C4_delete_then_move_index_in_range_witness :
    ((moveImage 0 1 (deleteImageAtIndex 0 threeProfile).1).1.images.length ≠ 0 →
        (moveImage 0 1 (deleteImageAtIndex 0 threeProfile).1).1.currentIndex <
          (moveImage 0 1 (deleteImageAtIndex 0 threeProfile).1).1.images.length)
  ∧ ((moveImage 0 1 (deleteImageAtIndex 0 threeProfile).1).1.images.length = 0 →
        (moveImage 0 1 (deleteImageAtIndex 0 threeProfile).1).1.currentIndex = 0)
  ∧ (¬ ((0 : Int) < 0 ∨ (threeProfile.images.length : Int) ≤ 0) →
        threeProfile.images.length ≤ threeProfile.currentIndex + 1 →
        (deleteImageAtIndex 0 threeProfile).1.currentIndex = 0) :=
  C4_delete_then_move_index_in_range threeProfile 0 0 1 (by decide)

/-- Claim C10: `deleteImageAtIndex` with an out-of-range index, and
`moveImage` with equal or out-of-range indices, return early as complete
no-ops: the profile is returned unchanged and the persistence flag is
`false` (no storage write). -/
theorem C10_out_of_range_ops_are_noops (p : Profile) (i f t : Int)
    (hi : i < 0 ∨ (p.images.length : Int) ≤ i)
    (hm : f = t ∨ f < 0 ∨ (p.images.length : Int) ≤ f ∨ t < 0 ∨
      (p.images.length : Int) ≤ t) :
    deleteImageAtIndex i p = (p, false) ∧ moveImage f t p = (p, false) := by
  constructor
  · unfold deleteImageAtIndex
    rw [if_pos hi]
  · unfold moveImage
    split
    · rfl
    split
    · rfl
    split
    · rfl
    · rename_i h1 h2 h3
      exfalso
      push_neg at h2 h3
      rcases hm with hx | hx | hx | hx | hx <;> omega

/-- Witness for C10: index 5 is out of range for the two-image profile,
and a move from 0 to 0 is degenerate; both calls leave the profile as is
and write nothing. -/
theorem C10_out_of_range_ops_are_noops_witness :
    deleteImageAtIndex 5 twoProfile = (twoProfile, false)
  ∧ moveImage 0 0 twoProfile = (twoProfile, false) :=
  C10_out_of_range_ops_are_noops twoProfile 5 0 0 (by decide) (by decide)

/-- Claim C8: with replacement disabled or zero cached images, the trigger
returns the original thumbnail unchanged, marks the stream active, clears
the currently-showing pointer to `none`, and persists nothing. -/
theorem C8_disabled_or_empty_passthrough (draws : List Nat) (now : Nat) (orig : String)
    (s : StreamState)
    (h : s.replaceEnabled = false ∨ s.cachedDataUris.length = 0) :
    getCustomThumbnail draws now orig s =
      some ⟨orig, { s with isStreamActive := true, actualStreamImageUri := none }, none⟩ := by
  unfold getCustomThumbnail
  rw [if_pos h]

/-- Witness for C8: the empty disabled state passes the original payload
through. -/
theorem C8_disabled_or_empty_passthrough_witness :
    getCustomThumbnail [] 500000 "orig" disabledState =
      some ⟨"orig",
        { disabledState with isStreamActive := true, actualStreamImageUri := none },
        none⟩ :=
  C8_disabled_or_empty_passthrough [] 500000 "orig" disabledState (by decide)

/-- Claim C2, counterexample: a trigger invocation in the disabled branch
marks the stream active but does not refresh the recency stamp.  With the
stale stamp 1000, a trigger at time 500000 is followed one millisecond
later by a tick that demotes the stream to inactive, although far less
than 7 minutes elapsed since the most recent trigger invocation. -/
theorem C2_counterexample :
    (getCustomThumbnail [] 500000 "orig" disabledState).map
        (fun r => (r.state.isStreamActive, r.state.lastSlideChangeTime,
          (timerTick 500001 r.state).isStreamActive))
      = some (true, 1000, false) := by
  rfl

/-- Claim C2 (amended): every trigger invocation marks the stream active,
but only the invocations that show a custom image (replacement enabled and
at least one cached image) refresh the recency stamp; the disabled branch
leaves the stamp untouched.  The 1-second tick demotes an active stream to
inactive exactly when the stamp is positive and more than 420000 ms have
elapsed since the stamp. -/
theorem C2_liveness (draws : List Nat) (now tick : Nat) (orig : String)
    (s s1 : StreamState) (r : TriggerResult)
    (h : getCustomThumbnail draws now orig s = some r)
    (hact : s1.isStreamActive = true) :
    r.state.isStreamActive = true
  ∧ ((s.replaceEnabled = false ∨ s.cachedDataUris.length = 0) →
      r.state.lastSlideChangeTime = s.lastSlideChangeTime)
  ∧ ((s.replaceEnabled = true ∧ s.cachedDataUris.length ≠ 0) →
      r.state.lastSlideChangeTime = now)
  ∧ ((timerTick tick s1).isStreamActive = false ↔
      (0 < s1.lastSlideChangeTime ∧ 420000 < tick - s1.lastSlideChangeTime)) := by
  refine ⟨?_, ?_, ?_, ?_⟩
  · unfold getCustomThumbnail at h
    split at h
    · injection h with h; subst h; rfl
    split at h
    · injection h with h; subst h; rfl
    split at h
    · injection h with h; subst h; rfl
    · split at h
      · exact absurd h (by simp)
      · injection h with h; subst h; rfl
  · intro hc
    unfold getCustomThumbnail at h
    rw [if_pos hc] at h
    injection h with h; subst h; rfl
  · intro hc
    unfold getCustomThumbnail at h
    rw [if_neg (by simp [hc.1, hc.2])] at h
    split at h
    · injection h with h; subst h; rfl
    split at h
    · injection h with h; subst h; rfl
    · split at h
      · exact absurd h (by simp)
      · injection h with h; subst h; rfl
  · unfold timerTick
    split
    · rename_i hcond
      simp only [hcond.2.1, hcond.2.2, and_true, true_iff]
    · rename_i hcond
      rw [hact]
      simp only [show ((true = false) ↔ False) by simp]
      rw [hact] at hcond
      push_neg at hcond
      simp only [false_iff]
      intro hc
      exact absurd (hcond rfl hc.1) (by omega)

/-- Witness for C2: the one-image state's trigger at time 7, and a tick at
time 500001 against the active state stamped 1000. -/
theorem C2_liveness_witness :
    oneImageResult.state.isStreamActive = true
  ∧ ((oneImageState.replaceEnabled = false ∨ oneImageState.cachedDataUris.length = 0) →
      oneImageResult.state.lastSlideChangeTime = oneImageState.lastSlideChangeTime)
  ∧ ((oneImageState.replaceEnabled = true ∧ oneImageState.cachedDataUris.length ≠ 0) →
      oneImageResult.state.lastSlideChangeTime = 7)
  ∧ ((timerTick 500001 activeState).isStreamActive = false ↔
      (0 < activeState.lastSlideChangeTime ∧
        420000 < 500001 - activeState.lastSlideChangeTime)) :=
  C2_liveness [] 7 500001 "orig" oneImageState activeState oneImageResult rfl rfl

/-- Claim C3, counterexample: the single-image branch shows a custom image
(`"u0"`, not the original payload) but does not persist the slide index —
`saveSlideIndex` is never reached, so the recorded write is `none`. -/
theorem C3_counterexample :
    (getCustomThumbnail [] 7 "orig" oneImageState).map
        (fun r => (r.returned, r.savedIndex, r.state.lastSlideChangeTime))
      = some ("u0", none, 7) := by
  rfl

/-- Claim C3 (amended): every invocation that shows a custom image records
the invocation timestamp, but only the advancing branch persists the slide
index; the single-image/slideshow-off and manual-override branches show an
image and stamp the time without writing the index to durable storage. -/
theorem C3_shown_stamps_only_advance_persists (draws : List Nat) (now : Nat)
    (orig : String) (s : StreamState) (r : TriggerResult)
    (h : getCustomThumbnail draws now orig s = some r)
    (h1 : s.replaceEnabled = true) (h2 : s.cachedDataUris.length ≠ 0) :
    r.state.lastSlideChangeTime = now
  ∧ ((s.cachedDataUris.length = 1 ∨ s.slideshowEnabled = false ∨
      s.manualSlideChange = true) → r.savedIndex = none)
  ∧ ((2 ≤ s.cachedDataUris.length ∧ s.slideshowEnabled = true ∧
      s.manualSlideChange = false) → r.savedIndex = some r.state.currentSlideIndex) := by
  unfold getCustomThumbnail at h
  rw [if_neg (by simp [h1, h2])] at h
  split at h
  · rename_i hbr
    injection h with h; subst h
    refine ⟨rfl, fun _ => rfl, fun hc => ?_⟩
    rcases hbr with hb | hb
    · omega
    · rw [hc.2.1] at hb; exact absurd hb (by simp)
  split at h
  · rename_i hbr hman
    injection h with h; subst h
    refine ⟨rfl, fun _ => rfl, fun hc => ?_⟩
    rw [hc.2.2] at hman; exact absurd hman (by simp)
  · rename_i hbr hman
    split at h
    · exact absurd h (by simp)
    · rename_i nextIndex hpick
      injection h with h; subst h
      refine ⟨rfl, fun hc => ?_, fun _ => rfl⟩
      push_neg at hbr
      rcases hc with hb | hb | hb
      · exact absurd hb hbr.1
      · exact absurd hb (by simpa using hbr.2)
      · exact absurd hb hman

/-- Witness for C3: the advancing trigger on the three-image sequential
state stamps time 9 and persists index 1. -/
theorem C3_shown_stamps_only_advance_persists_witness :
    seq3Result.state.lastSlideChangeTime = 9
  ∧ ((seq3State.cachedDataUris.length = 1 ∨ seq3State.slideshowEnabled = false ∨
      seq3State.manualSlideChange = true) → seq3Result.savedIndex = none)
  ∧ ((2 ≤ seq3State.cachedDataUris.length ∧ seq3State.slideshowEnabled = true ∧
      seq3State.manualSlideChange = false) →
      seq3Result.savedIndex = some seq3Result.state.currentSlideIndex) :=
  C3_shown_stamps_only_advance_persists [] 9 "o" seq3State seq3Result rfl rfl (by decide)

lemma branch1_cond_false (s : StreamState) (h1 : s.replaceEnabled = true)
    (hlen : s.cachedDataUris.length ≠ 0) :
    ¬ (s.replaceEnabled = false ∨ s.cachedDataUris.length = 0) := by
  rw [h1]
  simp [hlen]

lemma branch2_cond_false (s : StreamState) (h2 : s.slideshowEnabled = true)
    (hlen : s.cachedDataUris.length ≠ 1) :
    ¬ (s.cachedDataUris.length = 1 ∨ s.slideshowEnabled = false) := by
  rw [h2]
  rintro (hx | hx)
  · exact hlen hx
  · exact absurd hx (by simp)

/-- Claim C5: with the manual-override flag set, replacement and slideshow
on and more than one cached image, the trigger returns the image at the
currently selected index without advancing it, clears the flag and
persists nothing; the immediately following trigger (sequential mode)
resumes normal advancement from that index. -/
theorem C5_manual_override_once (draws draws2 : List Nat) (now now2 : Nat)
    (orig orig2 : String) (s : StreamState)
    (h1 : s.replaceEnabled = true) (h2 : s.slideshowEnabled = true)
    (h3 : s.manualSlideChange = true) (h4 : 2 ≤ s.cachedDataUris.length)
    (h5 : s.slideshowRandom = false) :
    ∃ r, getCustomThumbnail draws now orig s = some r
      ∧ r.returned = s.cachedDataUris.getD s.currentSlideIndex ""
      ∧ r.state.currentSlideIndex = s.currentSlideIndex
      ∧ r.state.manualSlideChange = false
      ∧ r.savedIndex = none
      ∧ ∃ r2, getCustomThumbnail draws2 now2 orig2 r.state = some r2
          ∧ r2.state.currentSlideIndex =
              (s.currentSlideIndex + 1) % s.cachedDataUris.length
          ∧ r2.savedIndex =
              some ((s.currentSlideIndex + 1) % s.cachedDataUris.length) := by
  have hne0 : s.cachedDataUris.length ≠ 0 := by omega
  have hne1 : s.cachedDataUris.length ≠ 1 := by omega
  refine ⟨⟨s.cachedDataUris.getD s.currentSlideIndex "",
    { s with isStreamActive := true, manualSlideChange := false,
             lastSlideChangeTime := now,
             actualStreamImageUri := some (s.cachedDataUris.getD s.currentSlideIndex "") },
    none⟩, ?_, rfl, rfl, rfl, rfl, ?_⟩
  · unfold getCustomThumbnail
    rw [if_neg (branch1_cond_false s h1 hne0), if_neg (branch2_cond_false s h2 hne1),
      if_pos h3]
  · refine ⟨⟨s.cachedDataUris.getD ((s.currentSlideIndex + 1) % s.cachedDataUris.length) "",
      { s with isStreamActive := true, manualSlideChange := false,
               currentSlideIndex := (s.currentSlideIndex + 1) % s.cachedDataUris.length,
               lastSlideChangeTime := now2,
               actualStreamImageUri := some (s.cachedDataUris.getD
                 ((s.currentSlideIndex + 1) % s.cachedDataUris.length) "") },
      some ((s.currentSlideIndex + 1) % s.cachedDataUris.length)⟩, ?_, rfl, rfl⟩
    unfold getCustomThumbnail
    dsimp only
    rw [if_neg (branch1_cond_false s h1 hne0), if_neg (branch2_cond_false s h2 hne1),
      if_neg (by simp), h5, if_neg (by simp)]

/-- Witness for C5: the manual override on `manualState` shows slide 1
once, then the next trigger advances to `(1 + 1) % 2 = 0`. -/
theorem C5_manual_override_once_witness :
    ∃ r, getCustomThumbnail [] 4 "o" manualState = some r
      ∧ r.returned = manualState.cachedDataUris.getD manualState.currentSlideIndex ""
      ∧ r.state.currentSlideIndex = manualState.currentSlideIndex
      ∧ r.state.manualSlideChange = false
      ∧ r.savedIndex = none
      ∧ ∃ r2, getCustomThumbnail [] 5 "o" r.state = some r2
          ∧ r2.state.currentSlideIndex =
              (manualState.currentSlideIndex + 1) % manualState.cachedDataUris.length
          ∧ r2.savedIndex =
              some ((manualState.currentSlideIndex + 1) %
                manualState.cachedDataUris.length) :=
  C5_manual_override_once [] [] 4 5 "o" "o" manualState rfl rfl rfl (by decide) rfl

lemma pickRandom_ne (draws : List Nat) (cur n : Nat) (hn : 1 < n) (j : Nat)
    (h : pickRandom draws cur n = some j) : j ≠ cur := by
  induction draws with
  | nil => exact absurd h (by simp [pickRandom])
  | cons d rest ih =>
    unfold pickRandom at h
    split at h
    · exact ih h
    · rename_i hcond
      push_neg at hcond
      injection h with h
      subst h
      intro hdc
      have hle := hcond hdc
      omega

/-- Claim C7: in the random advancing branch with more than one cached
image, whatever the sequence of random draws, the index selected by the
trigger never equals the immediately-previous index. -/
theorem C7_random_no_immediate_repeat (draws : List Nat) (now : Nat) (orig : String)
    (s : StreamState) (r : TriggerResult)
    (h1 : s.replaceEnabled = true) (h2 : s.slideshowEnabled = true)
    (h3 : s.slideshowRandom = true) (h4 : s.manualSlideChange = false)
    (h5 : 1 < s.cachedDataUris.length)
    (h : getCustomThumbnail draws now orig s = some r) :
    r.state.currentSlideIndex ≠ s.currentSlideIndex := by
  have hne0 : s.cachedDataUris.length ≠ 0 := by omega
  have hne1 : s.cachedDataUris.length ≠ 1 := by omega
  unfold getCustomThumbnail at h
  rw [if_neg (branch1_cond_false s h1 hne0), if_neg (branch2_cond_false s h2 hne1),
    if_neg (by simp [h4]), h3, if_pos rfl] at h
  split at h
  · exact absurd h (by simp)
  · rename_i nextIndex hpick
    injection h with h; subst h
    exact pickRandom_ne draws s.currentSlideIndex s.cachedDataUris.length h5 nextIndex hpick

/-- Witness for C7: with draws `[0, 1]` on `randState`, the selected index
1 differs from the previous index 0. -/
theorem C7_random_no_immediate_repeat_witness :
    randResult.state.currentSlideIndex ≠ randState.currentSlideIndex :=
  C7_random_no_immediate_repeat [0, 1] 5 "o" randState randResult rfl rfl rfl rfl
    (by decide) rfl

lemma seqAdvancing_step (now : Nat) (orig : String) (s : StreamState)
    (h : SeqAdvancing s) :
    getCustomThumbnail [] now orig s =
      some ⟨s.cachedDataUris.getD ((s.currentSlideIndex + 1) % s.cachedDataUris.length) "",
        { s with isStreamActive := true,
                 currentSlideIndex := (s.currentSlideIndex + 1) % s.cachedDataUris.length,
                 lastSlideChangeTime := now,
                 actualStreamImageUri := some (s.cachedDataUris.getD
                   ((s.currentSlideIndex + 1) % s.cachedDataUris.length) "") },
        some ((s.currentSlideIndex + 1) % s.cachedDataUris.length)⟩ := by
  obtain ⟨h1, h2, h3, h4, h5⟩ := h
  have hne0 : s.cachedDataUris.length ≠ 0 := by omega
  have hne1 : s.cachedDataUris.length ≠ 1 := by omega
  unfold getCustomThumbnail
  rw [if_neg (branch1_cond_false s h1 hne0), if_neg (branch2_cond_false s h2 hne1),
    if_neg (by simp [h4]), h3, if_neg (by simp)]

lemma runSeq_formula (orig : String) (times : Nat → Nat) (s : StreamState)
    (h : SeqAdvancing s) (hidx : s.currentSlideIndex < s.cachedDataUris.length) :
    ∀ k, ∃ sk, runSeq orig times s k = some sk
      ∧ SeqAdvancing sk
      ∧ sk.cachedDataUris = s.cachedDataUris
      ∧ sk.currentSlideIndex =
          (s.currentSlideIndex + k) % s.cachedDataUris.length := by
  intro k
  induction k with
  | zero =>
    exact ⟨s, rfl, h, rfl, by rw [Nat.add_zero, Nat.mod_eq_of_lt hidx]⟩
  | succ k ih =>
    obtain ⟨sk, hrun, hadv, huris, hik⟩ := ih
    have hstep := seqAdvancing_step (times k) orig sk hadv
    have hn1 : 1 < s.cachedDataUris.length := by
      obtain ⟨_, _, _, _, a5⟩ := h; omega
    refine ⟨{ sk with
              isStreamActive := true,
              currentSlideIndex := (sk.currentSlideIndex + 1) % sk.cachedDataUris.length,
              lastSlideChangeTime := times k,
              actualStreamImageUri := some (sk.cachedDataUris.getD
                ((sk.currentSlideIndex + 1) % sk.cachedDataUris.length) "") },
      ?_, ?_, ?_, ?_⟩
    · unfold runSeq
      rw [hrun]
      dsimp only
      rw [hstep]
      rfl
    · obtain ⟨a1, a2, a3, a4, a5⟩ := hadv
      exact ⟨a1, a2, a3, a4, a5⟩
    · exact huris
    · dsimp only
      rw [hik, huris]
      conv_rhs => rw [show s.currentSlideIndex + (k + 1) = s.currentSlideIndex + k + 1
        from rfl, Nat.add_mod (s.currentSlideIndex + k) 1]
      rw [Nat.mod_eq_of_lt hn1]

lemma mod_shift_inj (c n k1 k2 : Nat) (hk1 : k1 < n) (hk2 : k2 < n)
    (h : (c + (k1 + 1)) % n = (c + (k2 + 1)) % n) : k1 = k2 := by
  have h1 : (c + 1 + k1) % n = (c + 1 + k2) % n := by
    rw [show c + 1 + k1 = c + (k1 + 1) from by omega,
      show c + 1 + k2 = c + (k2 + 1) from by omega, h]
  have h3 : Nat.ModEq n k1 k2 := Nat.ModEq.add_left_cancel' (c + 1) h1
  have h4 : k1 % n = k2 % n := h3
  rw [Nat.mod_eq_of_lt hk1, Nat.mod_eq_of_lt hk2] at h4
  exact h4

lemma mod_shift_surj (c n j : Nat) (hn : 0 < n) (hj : j < n) :
    ∃ m, m < n ∧ (c + (m + 1)) % n = j := by
  have ha : (c + 1) % n < n := Nat.mod_lt _ hn
  by_cases hcase : (c + 1) % n ≤ j
  · refine ⟨j - (c + 1) % n, by omega, ?_⟩
    have h1 : c + (j - (c + 1) % n + 1) = c + 1 + (j - (c + 1) % n) := by omega
    rw [h1, ← Nat.mod_add_mod]
    have h2 : (c + 1) % n + (j - (c + 1) % n) = j := by omega
    rw [h2, Nat.mod_eq_of_lt hj]
  · refine ⟨j + n - (c + 1) % n, by omega, ?_⟩
    have h1 : c + (j + n - (c + 1) % n + 1) = c + 1 + (j + n - (c + 1) % n) := by omega
    rw [h1, ← Nat.mod_add_mod]
    have h2 : (c + 1) % n + (j + n - (c + 1) % n) = j + n := by omega
    rw [h2, Nat.add_mod_right, Nat.mod_eq_of_lt hj]

/-- Claim C6: in the sequential advancing branch each trigger sets the
index to `(index + 1) mod N`: after `k` triggers the index is
`(start + k) mod N`; any two distinct triggers within an N-length window
land on distinct indices; every index below N is visited by some trigger
in the window; and after N triggers the index returns to its start
(period N). -/
theorem C6_sequential_rotation (orig : String) (times : Nat → Nat) (s : StreamState)
    (k k1 k2 j : Nat) (s1 s2 : StreamState)
    (h : SeqAdvancing s) (hidx : s.currentSlideIndex < s.cachedDataUris.length)
    (hk1 : k1 < s.cachedDataUris.length) (hk2 : k2 < s.cachedDataUris.length)
    (hne : k1 ≠ k2)
    (hr1 : runSeq orig times s (k1 + 1) = some s1)
    (hr2 : runSeq orig times s (k2 + 1) = some s2)
    (hj : j < s.cachedDataUris.length) :
    (∃ sk, runSeq orig times s k = some sk ∧
        sk.currentSlideIndex = (s.currentSlideIndex + k) % s.cachedDataUris.length)
  ∧ s1.currentSlideIndex ≠ s2.currentSlideIndex
  ∧ (∃ m sm, m < s.cachedDataUris.length ∧ runSeq orig times s (m + 1) = some sm ∧
      sm.currentSlideIndex = j)
  ∧ (∃ sN, runSeq orig times s s.cachedDataUris.length = some sN ∧
      sN.currentSlideIndex = s.currentSlideIndex) := by
  have hn : 0 < s.cachedDataUris.length := by
    obtain ⟨_, _, _, _, a5⟩ := h; omega
  refine ⟨?_, ?_, ?_, ?_⟩
  · obtain ⟨sk, hrun, _, _, hik⟩ := runSeq_formula orig times s h hidx k
    exact ⟨sk, hrun, hik⟩
  · obtain ⟨t1, hrunt1, _, _, hit1⟩ := runSeq_formula orig times s h hidx (k1 + 1)
    obtain ⟨t2, hrunt2, _, _, hit2⟩ := runSeq_formula orig times s h hidx (k2 + 1)
    rw [hr1] at hrunt1
    rw [hr2] at hrunt2
    injection hrunt1 with he1
    injection hrunt2 with he2
    intro heq
    apply hne
    apply mod_shift_inj s.currentSlideIndex s.cachedDataUris.length k1 k2 hk1 hk2
    rw [← hit1, ← hit2, ← he1, ← he2, heq]
  · obtain ⟨m, hm, hmod⟩ :=
      mod_shift_surj s.currentSlideIndex s.cachedDataUris.length j hn hj
    obtain ⟨sm, hrunm, _, _, him⟩ := runSeq_formula orig times s h hidx (m + 1)
    refine ⟨m, sm, hm, hrunm, ?_⟩
    rw [him]
    exact hmod
  · obtain ⟨sN, hrunN, _, _, hiN⟩ :=
      runSeq_formula orig times s h hidx s.cachedDataUris.length
    refine ⟨sN, hrunN, ?_⟩
    rw [hiN, Nat.add_mod_right, Nat.mod_eq_of_lt hidx]

/-- Witness for C6: the three-image sequential scenario starting at index
0; the first two triggers land on distinct indices 1 and 2, index 0 is
reached within the window, and three triggers return to index 0. -/
theorem C6_sequential_rotation_witness :
    (∃ sk, runSeq "o" (fun x => x) seq3State 3 = some sk ∧
        sk.currentSlideIndex =
          (seq3State.currentSlideIndex + 3) % seq3State.cachedDataUris.length)
  ∧ seq3After1.currentSlideIndex ≠ seq3After2.currentSlideIndex
  ∧ (∃ m sm, m < seq3State.cachedDataUris.length ∧
      runSeq "o" (fun x => x) seq3State (m + 1) = some sm ∧
      sm.currentSlideIndex = 0)
  ∧ (∃ sN, runSeq "o" (fun x => x) seq3State seq3State.cachedDataUris.length = some sN ∧
      sN.currentSlideIndex = seq3State.currentSlideIndex) :=
  C6_sequential_rotation "o" (fun x => x) seq3State 3 0 1 0 seq3After1 seq3After2
    (by decide) (by decide) (by decide) (by decide) (by decide) rfl rfl (by decide)

/-- Claim C9: on load with the multi-profile record absent, a present
legacy single-list record is migrated: the default profile is created with
exactly the legacy images in order, the collection is persisted under the
multi-profile key, and all legacy keys are deleted; with neither record
present, an empty default profile is initialized and the store is left
untouched. -/
theorem C9_load_migration (ds : DataStore) (old : SlideshowData)
    (h1 : ds.profilesData = none) :
    (ds.slideshowData = some old → old.images ≠ [] →
      ∃ prof, loadProfilesFromDataStore ds =
          ([prof], DEFAULT_PROFILE_ID,
            ⟨some ⟨[storeProfile prof], DEFAULT_PROFILE_ID⟩, none, none, none⟩)
        ∧ prof.id = DEFAULT_PROFILE_ID
        ∧ prof.name = "Default"
        ∧ prof.images = old.images
        ∧ prof.currentIndex = ds.indexData.getD 0)
  ∧ (ds.slideshowData = none →
      loadProfilesFromDataStore ds = ([emptyDefaultProfile], DEFAULT_PROFILE_ID, ds)) := by
  obtain ⟨pd, sd, idxd, imd⟩ := ds
  simp only at h1
  subst h1
  constructor
  · intro hs hne
    simp only at hs
    subst hs
    refine ⟨⟨DEFAULT_PROFILE_ID, "Default", old.images, old.images.map blobToDataUrl,
      (Option.getD idxd 0)⟩, ?_, rfl, rfl, rfl, rfl⟩
    unfold loadProfilesFromDataStore loadLegacy
    dsimp only
    rw [if_pos (by simpa using hne)]
    rfl
  · intro hs
    simp only at hs
    subst hs
    rfl

/-- Witness for C9: loading `legacyStore` migrates its two images into the
default profile, persists the new format and deletes the legacy keys. -/
theorem C9_load_migration_witness :
    (legacyStore.slideshowData = some ⟨[imgA, imgB]⟩ → [imgA, imgB] ≠ [] →
      ∃ prof, loadProfilesFromDataStore legacyStore =
          ([prof], DEFAULT_PROFILE_ID,
            ⟨some ⟨[storeProfile prof], DEFAULT_PROFILE_ID⟩, none, none, none⟩)
        ∧ prof.id = DEFAULT_PROFILE_ID
        ∧ prof.name = "Default"
        ∧ prof.images = [imgA, imgB]
        ∧ prof.currentIndex = legacyStore.indexData.getD 0)
  ∧ (legacyStore.slideshowData = none →
      loadProfilesFromDataStore legacyStore =
        ([emptyDefaultProfile], DEFAULT_PROFILE_ID, legacyStore)) :=
  C9_load_migration legacyStore ⟨[imgA, imgB]⟩ rfl

end CustomStream
